import Mathlib

/-!
Shallow embedding of the aura-blockchain/explorer client core, and proofs
about it.  The definitions below are translated from the JavaScript /
TypeScript sources:

* `src/frontend/explorer.js` — the `AuraExplorer` class: cache (`fetchAPI`),
  WebSocket handlers, pagination, filters, auto-refresh scheduler.
* `src/ping-pub-explorer/src/api/aura.ts` — `searchLedger` / `normalizeHash`.

JavaScript `Map` objects are modelled as association lists with
last-write-wins `set`; timestamps are natural-number milliseconds; the
effects of `async` calls (HTTP fetches, timer scheduling, WebSocket sends)
are made explicit as command lists or environment oracles.
-/

namespace Explorer

/-- One cache entry stored by `fetchAPI`: `{ data, timestamp }`
(explorer.js line 721-724). -/
structure CacheEntry (α : Type) where
  data : α
  timestamp : Nat
deriving Repr, DecidableEq

/-- The `this.cache = new Map()` of `AuraExplorer` (explorer.js line 10),
modelled as an association list keyed by the endpoint string. -/
abbrev Cache (α : Type) := List (String × CacheEntry α)

/-- `Map.get` / `Map.has`: the entry currently stored for a key, if any. -/
def cacheGetEntry {α : Type} : Cache α → String → Option (CacheEntry α)
  | [], _ => none
  | (k, e) :: rest, key => if k = key then some e else cacheGetEntry rest key

/-- `Map.set`: overwrite the entry for the key if present, else append. -/
def cacheSet {α : Type} : Cache α → String → CacheEntry α → Cache α
  | [], key, e => [(key, e)]
  | (k, e') :: rest, key, e =>
      if k = key then (key, e) :: rest else (k, e') :: cacheSet rest key e

/-- `Map.delete`: remove the entry for exactly this key. -/
def cacheDelete {α : Type} (c : Cache α) (key : String) : Cache α :=
  c.filter (fun p => p.1 ≠ key)

/-- `this.cacheTimeout = 5000` (explorer.js line 11). -/
def cacheTimeout : Nat := 5000

/-- The cache-read half of `fetchAPI` (explorer.js lines 706-711): a stored
entry is returned iff `now - entry.timestamp < cacheTimeout`; an expired
entry is treated as absent (it is not removed). -/
def cacheGet {α : Type} (c : Cache α) (key : String) (now : Nat) : Option α :=
  match cacheGetEntry c key with
  | some cached => if now - cached.timestamp < cacheTimeout then some cached.data else none
  | none => none

/-- `fetchAPI(endpoint)` (explorer.js lines 702-727).  The outcome of the
underlying `fetch` + `response.json()` is passed in as `remote`
(`Except.error` models a thrown `TransportError`: network rejection or
non-success HTTP status).  Returns the JS return/throw outcome together
with the cache after the call. -/
def fetchAPI {α : Type} (cache : Cache α) (now : Nat) (endpoint : String)
    (remote : Except String α) : Except String α × Cache α :=
  match cacheGet cache endpoint now with
  | some data => (Except.ok data, cache)
  | none =>
      match remote with
      | Except.error e => (Except.error e, cache)
      | Except.ok data => (Except.ok data, cacheSet cache endpoint ⟨data, now⟩)

/-- One `{ page, limit }` record of `this.pagination` (explorer.js
lines 12-16). -/
structure Pagination where
  page : Nat
  limit : Nat
deriving Repr, DecidableEq

/-- `this.pagination = { blocks: {page:1,limit:20}, txs: …, proposals: … }`. -/
structure PaginationState where
  blocks : Pagination
  txs : Pagination
  proposals : Pagination
deriving Repr, DecidableEq

/-- `this.filters = { txType: null, txStatus: null, proposalStatus: null }`
(explorer.js lines 17-21); `null` is `none`. -/
structure Filters where
  txType : Option String
  txStatus : Option String
  proposalStatus : Option String
deriving Repr, DecidableEq

/-- The mutable fields of `AuraExplorer` that the cache / pagination /
filter operations touch. -/
structure ExplorerState (α : Type) where
  cache : Cache α
  pagination : PaginationState
  filters : Filters
deriving Repr, DecidableEq

/-- The asynchronous loader calls an operation can trigger; each loader ends
in a `fetchAPI` call for its resource. -/
inductive Command where
  | loadBlocks
  | loadTransactions
  | loadProposals
  | updateQuickStats
deriving Repr, DecidableEq

/-- `handleNewBlock` (explorer.js lines 143-150): delete the cache key
`'blocks'`, re-load blocks only when the blocks view is on page 1, and
always refresh the quick stats. -/
def handleNewBlock {α : Type} (s : ExplorerState α) : ExplorerState α × List Command :=
  ({ s with cache := cacheDelete s.cache "blocks" },
   (if s.pagination.blocks.page = 1 then [Command.loadBlocks] else [])
     ++ [Command.updateQuickStats])

/-- `handleNewTransaction` (explorer.js lines 152-158): delete the cache key
`'transactions'`, re-load transactions only when the txs view is on
page 1. -/
def handleNewTransaction {α : Type} (s : ExplorerState α) : ExplorerState α × List Command :=
  ({ s with cache := cacheDelete s.cache "transactions" },
   if s.pagination.txs.page = 1 then [Command.loadTransactions] else [])

/-- `prevBlocksPage` (explorer.js lines 658-663). -/
def prevBlocksPage {α : Type} (s : ExplorerState α) : ExplorerState α × List Command :=
  if 1 < s.pagination.blocks.page then
    ({ s with pagination.blocks.page := s.pagination.blocks.page - 1 }, [Command.loadBlocks])
  else (s, [])

/-- `nextBlocksPage` (explorer.js lines 665-668). -/
def nextBlocksPage {α : Type} (s : ExplorerState α) : ExplorerState α × List Command :=
  ({ s with pagination.blocks.page := s.pagination.blocks.page + 1 }, [Command.loadBlocks])

/-- `prevTxsPage` (explorer.js lines 670-675). -/
def prevTxsPage {α : Type} (s : ExplorerState α) : ExplorerState α × List Command :=
  if 1 < s.pagination.txs.page then
    ({ s with pagination.txs.page := s.pagination.txs.page - 1 }, [Command.loadTransactions])
  else (s, [])

/-- `nextTxsPage` (explorer.js lines 677-680). -/
def nextTxsPage {α : Type} (s : ExplorerState α) : ExplorerState α × List Command :=
  ({ s with pagination.txs.page := s.pagination.txs.page + 1 }, [Command.loadTransactions])

/-- `prevProposalsPage` (explorer.js lines 527-532). -/
def prevProposalsPage {α : Type} (s : ExplorerState α) : ExplorerState α × List Command :=
  if 1 < s.pagination.proposals.page then
    ({ s with pagination.proposals.page := s.pagination.proposals.page - 1 },
     [Command.loadProposals])
  else (s, [])

/-- `nextProposalsPage` (explorer.js lines 534-537). -/
def nextProposalsPage {α : Type} (s : ExplorerState α) : ExplorerState α × List Command :=
  ({ s with pagination.proposals.page := s.pagination.proposals.page + 1 },
   [Command.loadProposals])

/-- The `txTypeFilter` change handler (explorer.js lines 48-51):
`this.filters.txType = e.target.value || null; this.loadTransactions()`.
The JS `|| null` turns the empty string into `null`. -/
def onTxTypeFilterChange {α : Type} (s : ExplorerState α) (value : String) :
    ExplorerState α × List Command :=
  ({ s with filters.txType := if value = "" then none else some value },
   [Command.loadTransactions])

/-- The `txStatusFilter` change handler (explorer.js lines 52-55). -/
def onTxStatusFilterChange {α : Type} (s : ExplorerState α) (value : String) :
    ExplorerState α × List Command :=
  ({ s with filters.txStatus := if value = "" then none else some value },
   [Command.loadTransactions])

/-- The `proposalStatusFilter` change handler (explorer.js lines 76-80):
stores the value, resets `pagination.proposals.page = 1`, reloads. -/
def onProposalStatusFilterChange {α : Type} (s : ExplorerState α) (value : String) :
    ExplorerState α × List Command :=
  ({ s with
      filters.proposalStatus := if value = "" then none else some value,
      pagination.proposals.page := 1 },
   [Command.loadProposals])

/-- State for the auto-refresh scheduler (explorer.js lines 682-700):
`refreshInterval` is the `setInterval` handle held by the explorer;
`activeTimers` and `nextTimerId` model the browser's timer table, so
"how many interval timers are live" is observable. -/
structure RefreshState where
  refreshInterval : Option Nat
  activeTimers : List Nat
  nextTimerId : Nat
deriving Repr, DecidableEq

/-- `startAutoRefresh` (explorer.js lines 682-693): early-return when a
handle is already held, otherwise create one new interval timer and keep
its handle. -/
def startAutoRefresh (s : RefreshState) : RefreshState :=
  if s.refreshInterval.isSome then s
  else
    { refreshInterval := some s.nextTimerId,
      activeTimers := s.nextTimerId :: s.activeTimers,
      nextTimerId := s.nextTimerId + 1 }

/-- `stopAutoRefresh` (explorer.js lines 695-700): `clearInterval` on the
held handle and null it out; no-op when no handle is held. -/
def stopAutoRefresh (s : RefreshState) : RefreshState :=
  match s.refreshInterval with
  | some id => { s with activeTimers := s.activeTimers.erase id, refreshInterval := none }
  | none => s

/-- One tick of the interval created by `startAutoRefresh` (explorer.js
lines 684-692): blocks and txs are refreshed only on page 1, stats
always. -/
def autoRefreshTick {α : Type} (s : ExplorerState α) : List Command :=
  (if s.pagination.blocks.page = 1 then [Command.loadBlocks] else [])
    ++ (if s.pagination.txs.page = 1 then [Command.loadTransactions] else [])
    ++ [Command.updateQuickStats]

/-- The observable effects of the WebSocket lifecycle handlers installed by
`initWebSocket` (explorer.js lines 89-125). -/
inductive WsEffect where
  | updateStatus (status : String)
  | sendSubscribe (channel : String)
  | scheduleReconnect (delayMs : Nat)
deriving Repr, DecidableEq

/-- `ws.onopen` (explorer.js lines 93-104): set the status indicator to
`connected`, then send the two subscribe messages
`{type:'subscribe', data:{channel:'blocks'}}` and
`{type:'subscribe', data:{channel:'transactions'}}`. -/
def wsOnOpen : List WsEffect :=
  [WsEffect.updateStatus "connected",
   WsEffect.sendSubscribe "blocks",
   WsEffect.sendSubscribe "transactions"]

/-- `ws.onerror` (explorer.js lines 111-114): set the status indicator to
`error`; nothing else. -/
def wsOnError : List WsEffect :=
  [WsEffect.updateStatus "error"]

/-- `ws.onclose` (explorer.js lines 116-120): set the status indicator to
`disconnected` and `setTimeout(() => this.initWebSocket(), 5000)`. -/
def wsOnClose : List WsEffect :=
  [WsEffect.updateStatus "disconnected",
   WsEffect.scheduleReconnect 5000]

/-- A `put` call into the cache, used to reason about `get`/`put` histories:
`fetchAPI` performs `cache.set(key, { data, timestamp: Date.now() })`
(explorer.js lines 721-724). -/
structure PutEvent (α : Type) where
  time : Nat
  sig : String
  payload : α
deriving Repr, DecidableEq

/-- Apply one put: `cache.set(sig, { data: payload, timestamp: time })`. -/
def cachePut {α : Type} (c : Cache α) (e : PutEvent α) : Cache α :=
  cacheSet c e.sig ⟨e.payload, e.time⟩

/-- The cache produced by a history of puts applied in order to the empty
`new Map()`. -/
def applyPuts {α : Type} (h : List (PutEvent α)) : Cache α :=
  h.foldl cachePut []

/-- A put history is chronological when the put times are in order, as they
are for calls made by one session (each put's timestamp is its
`Date.now()`). -/
def Chronological {α : Type} (h : List (PutEvent α)) : Prop :=
  h.Pairwise (fun a b => a.time ≤ b.time)

/-- `Except` equality is decidable componentwise, so concrete search
outcomes can be evaluated. -/
instance {ε α : Type} [DecidableEq ε] [DecidableEq α] : DecidableEq (Except ε α) := fun a b =>
  match a, b with
  | Except.ok x, Except.ok y =>
      if h : x = y then isTrue (by rw [h]) else isFalse (fun hh => by cases hh; exact h rfl)
  | Except.error x, Except.error y =>
      if h : x = y then isTrue (by rw [h]) else isFalse (fun hh => by cases hh; exact h rfl)
  | Except.ok _, Except.error _ => isFalse (fun hh => by cases hh)
  | Except.error _, Except.ok _ => isFalse (fun hh => by cases hh)

/-- The shape of `block.result` that `searchLedger` consumes:
`block.result.block_id.hash` (aura.ts). -/
structure RpcBlockResult where
  blockIdHash : String
deriving Repr, DecidableEq

/-- The shape of `tx.result` that `searchLedger` consumes: `hash` and
`height` (aura.ts). -/
structure RpcTxResult where
  hash : String
  height : Nat
deriving Repr, DecidableEq

/-- The `TxSearchResult` record built by `searchLedger`
(ping-pub-explorer/src/types.ts); the opaque `payload` field is omitted. -/
structure TxSearchResult where
  type : String
  height : Nat
  hash : String
deriving Repr, DecidableEq

/-- The remote RPC endpoints `searchLedger` can call through `fetchJson`;
`Except.error` is a thrown transport error (non-ok response or network
failure). -/
structure SearchEnv where
  blockLookup : Nat → Except String RpcBlockResult
  txLookup : String → Except String RpcTxResult

/-- A remote request issued by `searchLedger`:
`/rpc/block?height=…` or `/rpc/tx?hash=…`. -/
inductive RpcRequest where
  | blockByHeight (height : Nat)
  | txByHash (hash : String)
deriving Repr, DecidableEq

/-- JS `/^\d+$/.test(query)`: non-empty and every character a decimal
digit.  JS strings are sequences of characters, embedded here through
`String.data`. -/
def isAllDigits (q : String) : Bool :=
  !q.data.isEmpty && q.data.all Char.isDigit

/-- JS `Number(query)` on a string of decimal digits: its decimal value. -/
def decimalValue (q : String) : Nat :=
  q.data.foldl (fun n c => 10 * n + (c.toNat - '0'.toNat)) 0

/-- One character of the JS class `[0-9a-f]` with the `i` flag. -/
def isHexChar (c : Char) : Bool :=
  c.isDigit || ('a' ≤ c && c ≤ 'f') || ('A' ≤ c && c ≤ 'F')

/-- The first line of `normalizeHash` (aura.ts):
`value.toLowerCase().startsWith('0x') ? value.slice(2) : value`. -/
def hexCandidate (value : String) : List Char :=
  if List.isPrefixOf "0x".data (value.data.map Char.toLower) then value.data.drop 2
  else value.data

/-- `normalizeHash` (aura.ts lines 79-85): accept exactly 64 hex characters
after stripping an optional `0x`, and return `` `0x${hex.toUpperCase()}` ``;
otherwise `null`. -/
def normalizeHash (value : String) : Option String :=
  if (hexCandidate value).length = 64 && (hexCandidate value).all isHexChar then
    some (String.mk ("0x".data ++ (hexCandidate value).map Char.toUpper))
  else none

/-- `searchLedger` (aura.ts lines 48-77).  Returns the JS outcome (resolve
with a result, resolve with `null`, or reject with an error) together with
the remote requests issued.  Digit queries look up a block and let a
thrown transport error propagate; hash queries look up a transaction and
`catch` any error, returning `null`; all other queries return `null`
without any remote call. -/
def searchLedger (env : SearchEnv) (query : String) :
    Except String (Option TxSearchResult) × List RpcRequest :=
  if isAllDigits query then
    let targetHeight := decimalValue query
    match env.blockLookup targetHeight with
    | Except.error e => (Except.error e, [RpcRequest.blockByHeight targetHeight])
    | Except.ok block =>
        (Except.ok (some ⟨"block", targetHeight, block.blockIdHash⟩),
         [RpcRequest.blockByHeight targetHeight])
  else
    match normalizeHash query with
    | none => (Except.ok none, [])
    | some normalized =>
        match env.txLookup normalized with
        | Except.error _ => (Except.ok none, [RpcRequest.txByHash normalized])
        | Except.ok tx =>
            (Except.ok (some ⟨"transaction", tx.height, tx.hash⟩),
             [RpcRequest.txByHash normalized])

/-- Recognizer for the reconnection effect. -/
def isReconnectEffect : WsEffect → Bool
  | WsEffect.scheduleReconnect _ => true
  | _ => false

/-- The query signature of the spec's worked example. -/
def scenarioSig : String := "/api/blocks?limit=20&offset=0"

/-- The payload of the spec's worked example. -/
def scenarioPayload : String := "\x7bblocks:[\x7bheight:100\x7d]\x7d"

/-- A search environment whose remote calls always fail with a transport
error. -/
def deadRemoteEnv : SearchEnv :=
  { blockLookup := fun _ => Except.error "network unreachable",
    txLookup := fun _ => Except.error "network unreachable" }

/-- A search environment whose remote calls always succeed. -/
def liveRemoteEnv : SearchEnv :=
  { blockLookup := fun _ =>
      Except.ok ⟨"E3B0C44298FC1C149AFBF4C8996FB92427AE41E4649B934CA495991B7852B855"⟩,
    txLookup := fun h => Except.ok ⟨h, 42⟩ }

/-- A 64-character lowercase hex transaction hash. -/
def sampleTxHashLower : String :=
  "aaaaaaaaaaaaaaaaaaaaaaaaaaaaaaaaaaaaaaaaaaaaaaaaaaaaaaaaaaaaaaaa"

/-- The normalized form `normalizeHash` produces for `sampleTxHashLower`. -/
def sampleTxHashNorm : String :=
  "0xAAAAAAAAAAAAAAAAAAAAAAAAAAAAAAAAAAAAAAAAAAAAAAAAAAAAAAAAAAAAAAAA"

theorem cacheGetEntry_set_self {α : Type} (c : Cache α) (k : String) (e : CacheEntry α) :
    cacheGetEntry (cacheSet c k e) k = some e := by
  induction c with
  | nil => simp [cacheSet, cacheGetEntry]
  | cons p rest ih =>
      obtain ⟨k', e'⟩ := p
      by_cases h : k' = k
      · simp [cacheSet, h, cacheGetEntry]
      · simp [cacheSet, h, cacheGetEntry, ih]

theorem cacheGetEntry_set_ne {α : Type} (c : Cache α) (k key : String) (e : CacheEntry α)
    (h : k ≠ key) : cacheGetEntry (cacheSet c k e) key = cacheGetEntry c key := by
  induction c with
  | nil => simp [cacheSet, cacheGetEntry, h]
  | cons p rest ih =>
      obtain ⟨k', e'⟩ := p
      by_cases hk : k' = k
      · subst hk
        simp [cacheSet, cacheGetEntry, h]
      · simp [cacheSet, hk, cacheGetEntry, ih]

theorem applyPuts_concat {α : Type} (h : List (PutEvent α)) (e : PutEvent α) :
    applyPuts (h ++ [e]) = cachePut (applyPuts h) e := by
  simp [applyPuts, List.foldl_append]

theorem cacheGet_applyPuts_isSome {α : Type} (h : List (PutEvent α)) (S : String) (t : Nat)
    (hc : Chronological h) :
    (cacheGet (applyPuts h) S t).isSome
      ↔ ∃ e ∈ h, e.sig = S ∧ t - e.time < cacheTimeout := by
  induction h using List.reverseRecOn with
  | nil => simp [applyPuts, cacheGet, cacheGetEntry]
  | append_singleton h e ih =>
      rw [Chronological, List.pairwise_append] at hc
      obtain ⟨hch, -, hle⟩ := hc
      rw [applyPuts_concat]
      by_cases hs : e.sig = S
      · subst hs
        rw [cacheGet, cachePut, cacheGetEntry_set_self]
        constructor
        · intro hsome
          by_cases ht : t - e.time < cacheTimeout
          · exact ⟨e, by simp, rfl, ht⟩
          · simp [ht] at hsome
        · rintro ⟨x, hx, hxs, hxt⟩
          rcases List.mem_append.mp hx with hxh | hxe
          · have hxe' : x.time ≤ e.time := hle x hxh e (List.mem_singleton_self e)
            have : t - e.time ≤ t - x.time := Nat.sub_le_sub_left hxe' t
            have ht : t - e.time < cacheTimeout := lt_of_le_of_lt this hxt
            simp [ht]
          · rw [List.mem_singleton.mp hxe] at hxt
            simp [hxt]
      · rw [cacheGet, cachePut, cacheGetEntry_set_ne _ _ _ _ hs, ← cacheGet]
        rw [ih hch]
        constructor
        · rintro ⟨x, hx, hxs, hxt⟩
          exact ⟨x, List.mem_append.mpr (Or.inl hx), hxs, hxt⟩
        · rintro ⟨x, hx, hxs, hxt⟩
          rcases List.mem_append.mp hx with hxh | hxe
          · exact ⟨x, hxh, hxs, hxt⟩
          · rw [List.mem_singleton.mp hxe] at hxs
            exact absurd hxs hs

theorem cacheGet_applyPuts_payload {α : Type} (h : List (PutEvent α)) (S : String) (t : Nat)
    (p : α) (hg : cacheGet (applyPuts h) S t = some p) :
    ∃ e ∈ h, e.sig = S ∧ e.payload = p := by
  induction h using List.reverseRecOn with
  | nil => simp [applyPuts, cacheGet, cacheGetEntry] at hg
  | append_singleton h e ih =>
      rw [applyPuts_concat] at hg
      by_cases hs : e.sig = S
      · subst hs
        rw [cacheGet, cachePut, cacheGetEntry_set_self] at hg
        by_cases ht : t - e.time < cacheTimeout
        · simp [ht] at hg
          exact ⟨e, by simp, rfl, hg⟩
        · simp [ht] at hg
      · rw [cacheGet, cachePut, cacheGetEntry_set_ne _ _ _ _ hs, ← cacheGet] at hg
        obtain ⟨x, hx, hxs, hxp⟩ := ih hg
        exact ⟨x, List.mem_append.mpr (Or.inl hx), hxs, hxp⟩

/-- A state whose cache holds a blocks page fetched at t=0, with every view
on page 2 except proposals. -/
def newBlockBugState : ExplorerState String :=
  { cache := [(scenarioSig, ⟨scenarioPayload, 0⟩)],
    pagination := { blocks := ⟨2, 20⟩, txs := ⟨2, 20⟩, proposals := ⟨1, 20⟩ },
    filters := ⟨none, none, none⟩ }

/-- C1: the claim says a `new_block` / `new_transaction` push event removes
every cache entry whose signature starts with that resource's endpoint, so
no previously cached page is still returned by `get`.  The code instead
calls `cache.delete('blocks')` (resp. `'transactions'`), a key that is
never a signature stored by `fetchAPI` (those all start with `/api/`): the
deletion removes nothing, the cache is unchanged, and the cached blocks
page is still returned by a `get` inside the TTL. -/
theorem newBlock_invalidation_misses_cached_page :
    (handleNewBlock newBlockBugState).1.cache = newBlockBugState.cache
    ∧ cacheGet (handleNewBlock newBlockBugState).1.cache scenarioSig 1000 = some scenarioPayload
    ∧ (handleNewTransaction newBlockBugState).1.cache = newBlockBugState.cache := by
  decide

/-- A state whose transactions and proposals views sit on page 2. -/
def filterPageState : ExplorerState String :=
  { cache := [],
    pagination := { blocks := ⟨1, 20⟩, txs := ⟨2, 20⟩, proposals := ⟨2, 20⟩ },
    filters := ⟨none, none, none⟩ }

/-- C2 counterexample: with the transactions view on page 2, changing the
transaction type or status filter leaves the page at 2, refuting "always
resets that resource's page to 1". -/
theorem txFilter_keeps_page_counterexample :
    (onTxTypeFilterChange filterPageState "transfer").1.pagination.txs.page = 2
    ∧ (onTxStatusFilterChange filterPageState "failed").1.pagination.txs.page = 2
    ∧ ¬ (onTxTypeFilterChange filterPageState "transfer").1.pagination.txs.page = 1 := by
  decide

/-- C2 as amended: every filter change stores the new value (the empty
string clears the filter to `none`) and triggers exactly the re-fetch of
its resource; the proposal status filter resets the proposals page to 1,
while the transaction type/status filters leave all pagination state
unchanged. -/
theorem setFilter_amended {α : Type} (s : ExplorerState α) (v : String) :
    ((onProposalStatusFilterChange s v).1.pagination.proposals.page = 1
      ∧ (onProposalStatusFilterChange s v).1.filters.proposalStatus
          = (if v = "" then none else some v)
      ∧ (onProposalStatusFilterChange s v).2 = [Command.loadProposals])
    ∧ ((onTxTypeFilterChange s v).1.filters.txType = (if v = "" then none else some v)
      ∧ (onTxTypeFilterChange s v).1.pagination = s.pagination
      ∧ (onTxTypeFilterChange s v).2 = [Command.loadTransactions])
    ∧ ((onTxStatusFilterChange s v).1.filters.txStatus = (if v = "" then none else some v)
      ∧ (onTxStatusFilterChange s v).1.pagination = s.pagination
      ∧ (onTxStatusFilterChange s v).2 = [Command.loadTransactions]) :=
  ⟨⟨rfl, rfl, rfl⟩, ⟨rfl, rfl, rfl⟩, ⟨rfl, rfl, rfl⟩⟩

/-- A two-put history on one signature, in chronological order. -/
def statsPutHistory : List (PutEvent String) :=
  [⟨0, "/api/stats", "stats-v0"⟩, ⟨3000, "/api/stats", "stats-v1"⟩]

/-- C5: over any chronological put history, `get(S)` at time `t` returns a
payload iff some `put(S, _)` happened at a time `t'` with
`t - t' < cacheTimeout`, and any payload returned was stored by a put for
`S`; the spec's worked example (put at t=0, get at 4000 hits, get at 6000
misses) evaluates as claimed. -/
theorem cache_ttl_get_iff_put (h : List (PutEvent String)) (S : String) (t : Nat) (p : String)
    (hc : Chronological h) :
    ((cacheGet (applyPuts h) S t).isSome ↔ ∃ e ∈ h, e.sig = S ∧ t - e.time < cacheTimeout)
    ∧ (cacheGet (applyPuts h) S t = some p → ∃ e ∈ h, e.sig = S ∧ e.payload = p)
    ∧ cacheGet (applyPuts [⟨0, scenarioSig, scenarioPayload⟩]) scenarioSig 4000
        = some scenarioPayload
    ∧ cacheGet (applyPuts [⟨0, scenarioSig, scenarioPayload⟩]) scenarioSig 6000 = none :=
  ⟨cacheGet_applyPuts_isSome h S t hc,
   fun hg => cacheGet_applyPuts_payload h S t p hg,
   by decide, by decide⟩

/-- Witness for C5 at a concrete chronological history. -/
theorem cache_ttl_get_iff_put_witness :
    Chronological statsPutHistory
    ∧ (((cacheGet (applyPuts statsPutHistory) "/api/stats" 7000).isSome
          ↔ ∃ e ∈ statsPutHistory, e.sig = "/api/stats" ∧ 7000 - e.time < cacheTimeout)
      ∧ (cacheGet (applyPuts statsPutHistory) "/api/stats" 7000 = some "stats-v1" →
          ∃ e ∈ statsPutHistory, e.sig = "/api/stats" ∧ e.payload = "stats-v1")
      ∧ cacheGet (applyPuts [⟨0, scenarioSig, scenarioPayload⟩]) scenarioSig 4000
          = some scenarioPayload
      ∧ cacheGet (applyPuts [⟨0, scenarioSig, scenarioPayload⟩]) scenarioSig 6000 = none) :=
  ⟨by simp [Chronological, statsPutHistory],
   cache_ttl_get_iff_put statsPutHistory "/api/stats" 7000 "stats-v1"
     (by simp [Chronological, statsPutHistory])⟩

/-- A state with every resource view on page 1. -/
def pageOneState : ExplorerState String :=
  { cache := [],
    pagination := { blocks := ⟨1, 20⟩, txs := ⟨1, 20⟩, proposals := ⟨1, 20⟩ },
    filters := ⟨none, none, none⟩ }

/-- A state with every resource view on page 2. -/
def pageTwoState : ExplorerState String :=
  { cache := [],
    pagination := { blocks := ⟨2, 20⟩, txs := ⟨2, 20⟩, proposals := ⟨2, 20⟩ },
    filters := ⟨none, none, none⟩ }

/-- C6: for each resource view, `nextPage` increments the page by exactly 1
and issues one re-fetch; `prevPage` decrements and re-fetches only when the
page exceeds 1 and is a no-op (no fetch) at page 1; from page 1, three
`nextPage` calls followed by one `prevPage` land on page 3. -/
theorem pagination_pages (s : ExplorerState String) :
    ((nextBlocksPage s).1.pagination.blocks.page = s.pagination.blocks.page + 1
      ∧ (nextBlocksPage s).2 = [Command.loadBlocks])
    ∧ (1 < s.pagination.blocks.page →
        (prevBlocksPage s).1.pagination.blocks.page = s.pagination.blocks.page - 1
          ∧ (prevBlocksPage s).2 = [Command.loadBlocks])
    ∧ (s.pagination.blocks.page = 1 → prevBlocksPage s = (s, []))
    ∧ ((nextTxsPage s).1.pagination.txs.page = s.pagination.txs.page + 1
      ∧ (nextTxsPage s).2 = [Command.loadTransactions])
    ∧ (1 < s.pagination.txs.page →
        (prevTxsPage s).1.pagination.txs.page = s.pagination.txs.page - 1
          ∧ (prevTxsPage s).2 = [Command.loadTransactions])
    ∧ (s.pagination.txs.page = 1 → prevTxsPage s = (s, []))
    ∧ ((nextProposalsPage s).1.pagination.proposals.page = s.pagination.proposals.page + 1
      ∧ (nextProposalsPage s).2 = [Command.loadProposals])
    ∧ (1 < s.pagination.proposals.page →
        (prevProposalsPage s).1.pagination.proposals.page = s.pagination.proposals.page - 1
          ∧ (prevProposalsPage s).2 = [Command.loadProposals])
    ∧ (s.pagination.proposals.page = 1 → prevProposalsPage s = (s, []))
    ∧ (s.pagination.blocks.page = 1 →
        (prevBlocksPage
          (nextBlocksPage (nextBlocksPage (nextBlocksPage s).1).1).1).1.pagination.blocks.page
          = 3) := by
  refine ⟨⟨rfl, rfl⟩, ?_, ?_, ⟨rfl, rfl⟩, ?_, ?_, ⟨rfl, rfl⟩, ?_, ?_, ?_⟩
  · intro hp
    simp [prevBlocksPage, hp]
  · intro hp
    simp [prevBlocksPage, hp]
  · intro hp
    simp [prevTxsPage, hp]
  · intro hp
    simp [prevTxsPage, hp]
  · intro hp
    simp [prevProposalsPage, hp]
  · intro hp
    simp [prevProposalsPage, hp]
  · intro hp
    simp [nextBlocksPage, prevBlocksPage, hp]

/-- Witness for C6, on page-2 and page-1 states. -/
theorem pagination_pages_witness :
    ((prevBlocksPage pageTwoState).1.pagination.blocks.page = 1
      ∧ (prevBlocksPage pageTwoState).2 = [Command.loadBlocks])
    ∧ prevBlocksPage pageOneState = (pageOneState, [])
    ∧ (prevBlocksPage
        (nextBlocksPage (nextBlocksPage (nextBlocksPage pageOneState).1).1).1).1.pagination.blocks.page
        = 3 := by
  refine ⟨?_, ?_, ?_⟩
  · have h := (pagination_pages pageTwoState).2.1 (by decide)
    simpa using h
  · exact (pagination_pages pageOneState).2.2.1 rfl
  · exact (pagination_pages pageOneState).2.2.2.2.2.2.2.2.2 rfl

/-- C7: handling a `new_block` push event re-fetches the blocks resource
exactly once and the quick stats exactly once when the blocks view is on
page 1, and performs zero blocks re-fetches (stats only) on any deeper
page. -/
theorem newBlock_refetch_gated (s : ExplorerState String) :
    (s.pagination.blocks.page = 1 →
        (handleNewBlock s).2.count Command.loadBlocks = 1
        ∧ (handleNewBlock s).2.count Command.updateQuickStats = 1)
    ∧ (1 < s.pagination.blocks.page →
        (handleNewBlock s).2.count Command.loadBlocks = 0
        ∧ (handleNewBlock s).2.count Command.updateQuickStats = 1) := by
  constructor
  · intro hp
    simp [handleNewBlock, hp, List.count_cons]
  · intro hp
    have hne : s.pagination.blocks.page ≠ 1 := by omega
    simp [handleNewBlock, hne, List.count_cons]

/-- Witness for C7 on page-1 and page-2 states. -/
theorem newBlock_refetch_gated_witness :
    ((handleNewBlock pageOneState).2.count Command.loadBlocks = 1
      ∧ (handleNewBlock pageOneState).2.count Command.updateQuickStats = 1)
    ∧ ((handleNewBlock pageTwoState).2.count Command.loadBlocks = 0
      ∧ (handleNewBlock pageTwoState).2.count Command.updateQuickStats = 1) :=
  ⟨(newBlock_refetch_gated pageOneState).1 rfl,
   (newBlock_refetch_gated pageTwoState).2 (by decide)⟩

/-- C3 counterexample: with every remote call failing with a transport
error, a 64-hex-character query makes `searchLedger` issue the transaction
lookup, yet the failure is swallowed by the `catch` and the call resolves
with `null` (no match) instead of rejecting — a transport failure is
converted into the NotFound result. -/
theorem txLookup_transport_counterexample :
    searchLedger deadRemoteEnv sampleTxHashLower
      = (Except.ok none, [RpcRequest.txByHash sampleTxHashNorm]) := by
  decide

/-- C3 as amended: a transport failure of the block-height lookup is
propagated to the caller as an error, but a transport failure of the
transaction lookup is caught and returned as the NotFound result (`null`),
indistinguishable from "no match"; only block queries keep the two
outcomes distinct. -/
theorem search_transport_amended (env : SearchEnv) (q e : String) :
    (isAllDigits q = true → env.blockLookup (decimalValue q) = Except.error e →
        (searchLedger env q).1 = Except.error e)
    ∧ (∀ nh, isAllDigits q = false → normalizeHash q = some nh →
        env.txLookup nh = Except.error e → (searchLedger env q).1 = Except.ok none) := by
  constructor
  · intro hd hb
    simp [searchLedger, hd, hb]
  · intro nh hd hn ht
    simp [searchLedger, hd, hn, ht]

/-- Witness for C3's amended theorem on the failing environment. -/
theorem search_transport_amended_witness :
    (searchLedger deadRemoteEnv "12345").1 = Except.error "network unreachable"
    ∧ (searchLedger deadRemoteEnv sampleTxHashLower).1 = Except.ok none :=
  ⟨(search_transport_amended deadRemoteEnv "12345" "network unreachable").1 (by decide) rfl,
   (search_transport_amended deadRemoteEnv sampleTxHashLower "network unreachable").2
     sampleTxHashNorm (by decide) (by decide) rfl⟩

/-- C4 counterexample: a non-numeric, non-hash query (an address) makes
`searchLedger` issue no remote request at all and resolve with `null`,
even against a fully working backend — no address/account lookup is
performed, refuting classification rule (3). -/
theorem address_query_no_lookup_counterexample :
    searchLedger liveRemoteEnv "aura1qqpex4v6zd9v2jrusmx2evtx0pqzy2cn5cvpzc"
      = (Except.ok none, []) := by
  decide

/-- C4 as amended: (1) an all-digit query issues exactly the block-height
lookup for its decimal value; (2) otherwise a query that is 64 hex
characters after stripping an optional `0x` issues exactly the transaction
lookup for the normalized hash, which is `0x` followed by the uppercased
hex; (3) any other query issues no lookup and resolves with `null` (no
match) — first matching rule wins. -/
theorem search_classification_amended (env : SearchEnv) (q : String) :
    (isAllDigits q = true →
        (searchLedger env q).2 = [RpcRequest.blockByHeight (decimalValue q)])
    ∧ (∀ nh, isAllDigits q = false → normalizeHash q = some nh →
        (searchLedger env q).2 = [RpcRequest.txByHash nh])
    ∧ (isAllDigits q = false → normalizeHash q = none →
        searchLedger env q = (Except.ok none, []))
    ∧ (∀ v nh, normalizeHash v = some nh →
        nh = String.mk ("0x".data ++ (hexCandidate v).map Char.toUpper)
          ∧ (hexCandidate v).length = 64
          ∧ (hexCandidate v).all isHexChar = true) := by
  refine ⟨?_, ?_, ?_, ?_⟩
  · intro hd
    cases hb : env.blockLookup (decimalValue q) <;> simp [searchLedger, hd, hb]
  · intro nh hd hn
    cases ht : env.txLookup nh <;> simp [searchLedger, hd, hn, ht]
  · intro hd hn
    simp [searchLedger, hd, hn]
  · intro v nh hn
    unfold normalizeHash at hn
    split at hn
    · next hcond =>
        simp only [Option.some.injEq] at hn
        simp only [Bool.and_eq_true, decide_eq_true_eq] at hcond
        exact ⟨hn.symm, hcond.1, hcond.2⟩
    · exact absurd hn (by simp)

/-- Witness for C4's amended theorem across the three classification
branches. -/
theorem search_classification_amended_witness :
    (searchLedger liveRemoteEnv "12345").2 = [RpcRequest.blockByHeight (decimalValue "12345")]
    ∧ (searchLedger liveRemoteEnv sampleTxHashLower).2 = [RpcRequest.txByHash sampleTxHashNorm]
    ∧ searchLedger liveRemoteEnv "aura1validatorexample" = (Except.ok none, [])
    ∧ (sampleTxHashNorm
        = String.mk ("0x".data ++ (hexCandidate sampleTxHashLower).map Char.toUpper)
      ∧ (hexCandidate sampleTxHashLower).length = 64
      ∧ (hexCandidate sampleTxHashLower).all isHexChar = true) :=
  ⟨(search_classification_amended liveRemoteEnv "12345").1 (by decide),
   (search_classification_amended liveRemoteEnv sampleTxHashLower).2.1
     sampleTxHashNorm (by decide) (by decide),
   (search_classification_amended liveRemoteEnv "aura1validatorexample").2.2.1
     (by decide) (by decide),
   (search_classification_amended liveRemoteEnv "12345").2.2.2
     sampleTxHashLower sampleTxHashNorm (by decide)⟩

/-- C8 counterexample: the error handler's effects contain no scheduled
reconnection at all, refuting "after every transition to Errored …
exactly one reconnection attempt is scheduled". -/
theorem ws_error_no_reconnect_counterexample :
    wsOnError.countP isReconnectEffect = 0
    ∧ ¬ wsOnError.countP isReconnectEffect = 1 := by
  decide

/-- C8 as amended: after a Disconnected transition (the close handler)
exactly one reconnection attempt is scheduled, after the fixed 5000 ms
delay; a transition to Errored only updates the status display and
schedules no reconnection itself; and on every entry into Connected the
open handler sends exactly the two subscription requests, for channels
`blocks` and `transactions`, producing no other channel traffic. -/
theorem ws_lifecycle_amended :
    wsOnClose.countP isReconnectEffect = 1
    ∧ WsEffect.scheduleReconnect 5000 ∈ wsOnClose
    ∧ wsOnError.countP isReconnectEffect = 0
    ∧ wsOnOpen.count (WsEffect.sendSubscribe "blocks") = 1
    ∧ wsOnOpen.count (WsEffect.sendSubscribe "transactions") = 1
    ∧ wsOnOpen.countP isReconnectEffect = 0
    ∧ wsOnOpen = [WsEffect.updateStatus "connected", WsEffect.sendSubscribe "blocks",
        WsEffect.sendSubscribe "transactions"] := by
  decide

/-- C9: starting the auto-refresh scheduler is idempotent (a second start
changes nothing, and from a fresh state two starts leave exactly one live
timer); stopping clears the held handle, and a start right after a stop
creates exactly one new timer and holds its handle. -/
theorem autoRefresh_start_stop (s : RefreshState) :
    startAutoRefresh (startAutoRefresh s) = startAutoRefresh s
    ∧ (stopAutoRefresh s).refreshInterval = none
    ∧ (s.refreshInterval = none → s.activeTimers = [] →
        (startAutoRefresh (startAutoRefresh s)).activeTimers.length = 1)
    ∧ (startAutoRefresh (stopAutoRefresh s)).activeTimers.length
        = (stopAutoRefresh s).activeTimers.length + 1
    ∧ (startAutoRefresh (stopAutoRefresh s)).refreshInterval
        = some (stopAutoRefresh s).nextTimerId := by
  refine ⟨?_, ?_, ?_, ?_, ?_⟩
  · cases hr : s.refreshInterval <;> simp [startAutoRefresh, hr]
  · cases hr : s.refreshInterval <;> simp [stopAutoRefresh, hr]
  · intro h1 h2
    simp [startAutoRefresh, h1, h2]
  · cases hr : s.refreshInterval <;> simp [stopAutoRefresh, startAutoRefresh, hr]
  · cases hr : s.refreshInterval <;> simp [stopAutoRefresh, startAutoRefresh, hr]

/-- The scheduler state at construction time: no handle, no live timer. -/
def freshRefreshState : RefreshState := ⟨none, [], 0⟩

/-- Witness for C9 at the fresh scheduler state. -/
theorem autoRefresh_start_stop_witness :
    freshRefreshState.refreshInterval = none
    ∧ freshRefreshState.activeTimers = []
    ∧ (startAutoRefresh (startAutoRefresh freshRefreshState)).activeTimers.length = 1 :=
  ⟨rfl, rfl, (autoRefresh_start_stop freshRefreshState).2.2.1 rfl rfl⟩

/-- C10: when the underlying fetch fails (network rejection or non-ok HTTP
status, both modelled as `Except.error`), `fetchAPI` leaves the cache
exactly as it was — no entry added, and any pre-existing entry for the
signature, even an expired one, neither removed nor overwritten — and, when
no valid cache hit short-circuits the call, it propagates the error. -/
theorem fetchAPI_error_cache_unchanged (c : Cache String) (now : Nat) (endpoint e : String) :
    (fetchAPI c now endpoint (Except.error e)).2 = c
    ∧ (cacheGet c endpoint now = none →
        (fetchAPI c now endpoint (Except.error e)).1 = Except.error e) := by
  unfold fetchAPI
  cases hg : cacheGet c endpoint now <;> simp [hg]

/-- A cache whose only entry for `/api/stats` is already past its TTL at
t=6000. -/
def expiredStatsCache : Cache String := [("/api/stats", ⟨"old-stats", 0⟩)]

/-- Witness for C10 on a cache holding an expired entry. -/
theorem fetchAPI_error_cache_unchanged_witness :
    cacheGet expiredStatsCache "/api/stats" 6000 = none
    ∧ (fetchAPI expiredStatsCache 6000 "/api/stats"
        (Except.error "HTTP 500: Internal Server Error")).2 = expiredStatsCache
    ∧ (fetchAPI expiredStatsCache 6000 "/api/stats"
        (Except.error "HTTP 500: Internal Server Error")).1
        = Except.error "HTTP 500: Internal Server Error" :=
  ⟨by decide,
   (fetchAPI_error_cache_unchanged expiredStatsCache 6000 "/api/stats"
     "HTTP 500: Internal Server Error").1,
   (fetchAPI_error_cache_unchanged expiredStatsCache 6000 "/api/stats"
     "HTTP 500: Internal Server Error").2 (by decide)⟩

end Explorer
